import Mathlib

/-!
Verification development for the CyberMolt repository.

The repository consists of two small Python agents:
* `skills/cybermolt-reply-generator/agent.py` — builds a prompt from a tweet
  and its author, calls a chat-completions HTTP API with exponential-backoff
  retry, parses the response in two possible shapes, validates the reply
  length, and can post the reply via the Twitter API (`post_reply`).
* `skills/tweet-poster/agent.py` — posts a standalone tweet (`post_tweet`).

The shallow embedding below models the pure data flow of these functions.
External effects are made explicit:
* the outcome of each HTTP attempt is an `ApiOutcome` supplied per attempt
  (a request-level failure, or a 2xx response carrying a parsed JSON body);
* `time.sleep` is recorded as a list of slept durations (seconds);
* `os.environ` is a function `String → Option String`;
* the Twitter SDK call is an `Except String String` outcome parameter.

Python dictionaries decoded from JSON are modelled as association lists with
distinct keys; Python exceptions raised while duck-typing the response shape
(`AttributeError`, `TypeError`, `KeyError`, `IndexError`, `ValueError`) are
modelled by the `PyExc` type, and every fallible step returns `Except`.
-/

set_option autoImplicit false

/-- JSON values as decoded by Python `response.json()`.  Numbers are modelled
as integers (no claim involves fractional numbers); objects are association
lists with distinct keys. -/
inductive Json where
  | null : Json
  | bool : Bool → Json
  | num : Int → Json
  | str : String → Json
  | arr : List Json → Json
  | obj : List (String × Json) → Json

/-- Python truthiness of a decoded JSON value (`None`, `False`, `0`, `""`,
`[]`, `{}` are falsy). -/
def Json.truthy : Json → Bool
  | .null => false
  | .bool b => b
  | .num n => n != 0
  | .str s => s != ""
  | .arr l => !l.isEmpty
  | .obj fs => !fs.isEmpty

/-- Python type name of a decoded JSON value, used in exception messages. -/
def Json.pyTypeName : Json → String
  | .null => "NoneType"
  | .bool _ => "bool"
  | .num _ => "int"
  | .str _ => "str"
  | .arr _ => "list"
  | .obj _ => "dict"

/-- Python exceptions that the response-shape probing in `_call_api` can
raise.  `str(KeyError(k))` renders as the repr of the key, hence the quotes
in `PyExc.message`. -/
inductive PyExc where
  | valueError : String → PyExc
  | typeError : String → PyExc
  | keyError : String → PyExc
  | attributeError : String → PyExc
  | indexError : String → PyExc
deriving DecidableEq, Repr

/-- `str(e)` for a `PyExc`. -/
def PyExc.message : PyExc → String
  | .valueError m => m
  | .typeError m => m
  | .keyError k => "\x27" ++ k ++ "\x27"
  | .attributeError m => m
  | .indexError m => m

/-- All suffixes of a character list, longest first. -/
def charTails : List Char → List (List Char)
  | [] => [[]]
  | c :: cs => (c :: cs) :: charTails cs

/-- Substring test: `pat` occurs in `s` (Python `pat in s` for strings). -/
def strContains (s pat : String) : Bool :=
  (charTails s.data).any (fun t => pat.data.isPrefixOf t)

/-- Whitespace as stripped by Python `str.strip()` (ASCII portion; the
claims exercise only ASCII whitespace). -/
def pyIsSpace (c : Char) : Bool :=
  c = ' ' || c = '\t' || c = '\n' || c = '\r' || c = '\x0b' || c = '\x0c'

/-- Python `s.strip()`. -/
def pyStrip (s : String) : String :=
  String.mk (((s.data.dropWhile pyIsSpace).reverse.dropWhile pyIsSpace).reverse)

/-- Python `s.lstrip("@")`. -/
def pyLstripAt (s : String) : String :=
  String.mk (s.data.dropWhile (fun c => c = '@'))

mutual
/-- Python `json.dumps` (compact modelling: default separators,
`ensure_ascii=False`, minimal string escaping — the dumped text only feeds
the `ValueError` message and no theorem inspects it). -/
def Json.dumps : Json → String
  | .null => "null"
  | .bool true => "true"
  | .bool false => "false"
  | .num n => toString n
  | .str s => "\"" ++ s ++ "\""
  | .arr l => "[" ++ Json.dumpsArrItems l ++ "]"
  | .obj fs => "\x7b" ++ Json.dumpsObjItems fs ++ "\x7d"

def Json.dumpsArrItems : List Json → String
  | [] => ""
  | [x] => Json.dumps x
  | x :: xs => Json.dumps x ++ ", " ++ Json.dumpsArrItems xs

def Json.dumpsObjItems : List (String × Json) → String
  | [] => ""
  | [(k, v)] => "\"" ++ k ++ "\": " ++ Json.dumps v
  | (k, v) :: xs => "\"" ++ k ++ "\": " ++ Json.dumps v ++ ", " ++ Json.dumpsObjItems xs
end

/-- Python `container in`-test with a string operand (`key in container`):
dict keys, list membership, substring for strings; `TypeError` otherwise. -/
def pyMembership (container : Json) (key : String) : Except PyExc Bool :=
  match container with
  | .obj fs => .ok (fs.lookup key).isSome
  | .arr l => .ok (l.any (fun v => match v with | .str s => s == key | _ => false))
  | .str s => .ok (strContains s key)
  | other => .error (.typeError ("argument of type " ++ other.pyTypeName ++ " is not iterable"))

/-- Python subscript `container[key]` with a string key. -/
def pySubscript (container : Json) (key : String) : Except PyExc Json :=
  match container with
  | .obj fs =>
    match fs.lookup key with
    | some v => .ok v
    | none => .error (.keyError key)
  | .arr _ => .error (.typeError "list indices must be integers or slices, not str")
  | .str _ => .error (.typeError "string indices must be integers")
  | other => .error (.typeError (other.pyTypeName ++ " object is not subscriptable"))

/-- Python subscript `container[0]`. -/
def pySubscriptZero (container : Json) : Except PyExc Json :=
  match container with
  | .arr (x :: _) => .ok x
  | .arr [] => .error (.indexError "list index out of range")
  | .str s =>
    if s.isEmpty then .error (.indexError "string index out of range")
    else .ok (.str (String.singleton (s.get 0)))
  | .obj _ => .error (.keyError "0")
  | other => .error (.typeError (other.pyTypeName ++ " object is not subscriptable"))

/-- Python `v.strip()` on an arbitrary decoded value (`AttributeError` when
`v` is not a string). -/
def pyStripJson (v : Json) : Except PyExc String :=
  match v with
  | .str s => .ok (pyStrip s)
  | other => .error (.attributeError (other.pyTypeName ++ " object has no attribute strip"))

/-- Modern OpenAI-compatible extraction step of `_call_api`:

```
choices = result.get("choices")
if choices and isinstance(choices, list) and len(choices) > 0:
    content = choices[0].get("message", {}).get("content", "")
    if content:
        return content.strip()
```

`fs` are the fields of the (dict) response.  Returns `some` extracted text,
`none` to fall through to the legacy shapes, or a raised exception. -/
def modernStep (fs : List (String × Json)) : Except PyExc (Option String) :=
  match (fs.lookup "choices").getD .null with
  | .arr (first :: _) =>
    match first with
    | .obj ffs =>
      match (ffs.lookup "message").getD (.obj []) with
      | .obj mfs =>
        let content := (mfs.lookup "content").getD (.str "")
        if content.truthy then
          match pyStripJson content with
          | .ok s => .ok (some s)
          | .error e => .error e
        else .ok none
      | other => .error (.attributeError (other.pyTypeName ++ " object has no attribute get"))
    | other => .error (.attributeError (other.pyTypeName ++ " object has no attribute get"))
  | _ => .ok none

/-- Legacy DashScope extraction step of `_call_api`:

```
if "choices" in output and output["choices"]:
    return output["choices"][0]["message"]["content"].strip()
```
-/
def legacyChoicesStep (output : Json) : Except PyExc (Option String) :=
  match pyMembership output "choices" with
  | .error e => .error e
  | .ok false => .ok none
  | .ok true =>
    match pySubscript output "choices" with
    | .error e => .error e
    | .ok oc =>
      if oc.truthy then
        match pySubscriptZero oc with
        | .error e => .error e
        | .ok first =>
          match pySubscript first "message" with
          | .error e => .error e
          | .ok msg =>
            match pySubscript msg "content" with
            | .error e => .error e
            | .ok content =>
              match pyStripJson content with
              | .ok s => .ok (some s)
              | .error e => .error e
      else .ok none

/-- Legacy text extraction step of `_call_api`:

```
if "text" in output:
    return output["text"].strip()
```
-/
def textStep (output : Json) : Except PyExc (Option String) :=
  match pyMembership output "text" with
  | .error e => .error e
  | .ok false => .ok none
  | .ok true =>
    match pySubscript output "text" with
    | .error e => .error e
    | .ok t =>
      match pyStripJson t with
      | .ok s => .ok (some s)
      | .error e => .error e

/-- The response-parsing tail of `_call_api`: given the decoded JSON body of
a 2xx response, extract the model output text, trying the modern shape, then
the legacy `output.choices` shape, then `output.text`, and raising
`ValueError` if none yields content.  `output = result.get("output", {})`. -/
def extractContent (result : Json) : Except PyExc String :=
  match result with
  | .obj fs =>
    match modernStep fs with
    | .error e => .error e
    | .ok (some s) => .ok s
    | .ok none =>
      let output := (fs.lookup "output").getD (.obj [])
      match legacyChoicesStep output with
      | .error e => .error e
      | .ok (some s) => .ok s
      | .ok none =>
        match textStep output with
        | .error e => .error e
        | .ok (some s) => .ok s
        | .ok none =>
          .error (.valueError ("Failed to extract content from API response: "
            ++ (Json.dumps result).take 300))
  | other => .error (.attributeError (other.pyTypeName ++ " object has no attribute get"))

/-! ## Constants and prompt construction (`agent.py`) -/

def REPLY_MIN_LEN : Nat := 30
def REPLY_MAX_LEN : Nat := 180
def MAX_RETRIES : Nat := 3
def RETRY_BACKOFF_BASE : Nat := 2

def SYSTEM_PROMPT : String :=
  "You are a helpful assistant that strictly follows instructions."

/-- `REPLY_PROMPT_TEMPLATE.format(...)`: the fixed instruction template with
`{author}` (twice), `{tweet_content}`, `{min_len}`, `{max_len}` substituted.
Backslash-continued lines of the Python triple-quoted string join without a
newline. -/
def replyPromptRender (tweet_content author : String) (min_len max_len : Nat) : String :=
  "You are a sharp, insightful commenter on X (Twitter). Your job is to write a high-quality reply that adds genuine value to the conversation. You are NOT promoting anything — you are simply an engaged, knowledgeable participant.\n\nOriginal tweet author: @"
  ++ author
  ++ "\nOriginal tweet content:\n"
  ++ tweet_content
  ++ "\n\nFollow these rules strictly (output the final reply text only, no explanations):\n\n1. **Relevance first**: Your reply must directly engage with the original tweet\x27s topic. Reference a specific point, add a new angle, share a concise insight, or respectfully challenge an idea. Never be generic.\n\n2. **Add value**: Provide one of the following — a fresh perspective, a concise counterpoint, a related fact, a thought-provoking question, or a brief personal take. The reader should feel smarter or more curious after reading your reply.\n\n3. **Tone**: Conversational, witty when appropriate, confident but not arrogant. Sound like a well-read person casually sharing thoughts — not a bot, not a marketer, not a fanboy.\n\n4. **Absolute no-go**:\n   - NO self-promotion, links, donation addresses, or project shilling\n   - NO hashtags unless the original tweet already uses them and it feels natural\n   - NO \"check out\", \"follow me\", \"support us\" or any call-to-action\n   - NO generic praise like \"Great post!\", \"So true!\", \"Love this!\"\n   - NO emojis overuse — at most 1 emoji, and only if it fits naturally\n   - NO filler words or padding to inflate length\n\n5. **Format**:\n   - Length: "
  ++ toString min_len ++ "-" ++ toString max_len
  ++ " characters\n   - Language: match the original tweet\x27s language exactly\n   - Each generation must vary in structure and vocabulary — never repeat patterns\n   - Do NOT start with @"
  ++ author
  ++ " unless it adds conversational value\n\nOutput one reply. Nothing else.\n"

/-- `build_prompt(tweet_content, author)`. -/
def build_prompt (tweet_content author : String) : String :=
  replyPromptRender tweet_content author REPLY_MIN_LEN REPLY_MAX_LEN

/-! ## `generate_reply`: retry loop with exponential backoff -/

/-- The `GenerateResult` dataclass. -/
structure GenerateResult where
  success : Bool
  reply : String
  error : String
  length_warning : String
deriving DecidableEq, Repr

/-- The externally supplied outcome of one `_call_api` HTTP attempt: either a
`requests.exceptions.RequestException` (network error, timeout, or non-2xx via
`raise_for_status`) with its message, or a 2xx response with a decoded JSON
body. -/
inductive ApiOutcome where
  | requestError : String → ApiOutcome
  | httpOk : Json → ApiOutcome

/-- What one attempt of the `try:` block observes from `_call_api`: the
extracted reply text, or the exception it raises. -/
inductive AttemptError where
  | request : String → AttemptError
  | exc : PyExc → AttemptError
deriving DecidableEq, Repr

/-- Run `_call_api` for one attempt with the given external outcome. -/
def runAttempt (o : ApiOutcome) : Except AttemptError String :=
  match o with
  | .requestError m => .error (.request m)
  | .httpOk body =>
    match extractContent body with
    | .ok s => .ok s
    | .error e => .error (.exc e)

/-- The `last_error` string set by the three `except` clauses of
`generate_reply` (`RequestException`, then `ValueError`, then `Exception`). -/
def classifyAttemptError : AttemptError → String
  | .request m => "API request failed: " ++ m
  | .exc (.valueError m) => "Response parsing failed: " ++ m
  | .exc e => "Unknown error: " ++ e.message

/-- The f-string `f"Failed after {max_retries} retries. Last error: {last_error}"`. -/
def exhaustMsg (max_retries : Nat) (last_error : String) : String :=
  "Failed after " ++ toString max_retries ++ " retries. Last error: " ++ last_error

/-- The length-validation warning of `generate_reply` (empty when the length
is within bounds). -/
def lengthWarningFor (reply_len : Nat) : String :=
  if reply_len < REPLY_MIN_LEN then
    "Reply length (" ++ toString reply_len ++ ") is below the recommended minimum ("
      ++ toString REPLY_MIN_LEN ++ ")"
  else if reply_len > REPLY_MAX_LEN then
    "Reply length (" ++ toString reply_len ++ ") exceeds the recommended maximum ("
      ++ toString REPLY_MAX_LEN ++ ")"
  else ""

/-- The `for attempt in range(1, max_retries + 1)` loop of `generate_reply`.
`outcome i` is the external outcome of attempt `i` (1-based, as in the code);
`fuel` counts the remaining loop iterations (the top-level call passes
`max_retries`, so `fuel + attempt = max_retries + 1`).  Returns the
`GenerateResult`, the number of attempts performed, and the list of slept
durations in seconds (in order). -/
def genLoop (outcome : Nat → ApiOutcome) (max_retries : Nat) :
    Nat → Nat → String → GenerateResult × Nat × List Nat
  | 0, attempt, last_error =>
    (⟨false, "", exhaustMsg max_retries last_error, ""⟩, attempt - 1, [])
  | fuel + 1, attempt, _ =>
    match runAttempt (outcome attempt) with
    | .ok reply_text =>
      (⟨true, reply_text, "", lengthWarningFor reply_text.length⟩, attempt, [])
    | .error e =>
      if attempt < max_retries then
        let rest := genLoop outcome max_retries fuel (attempt + 1) (classifyAttemptError e)
        (rest.1, rest.2.1, RETRY_BACKOFF_BASE ^ attempt :: rest.2.2)
      else
        (⟨false, "", exhaustMsg max_retries (classifyAttemptError e), ""⟩, attempt, [])

/-- Observable trace of one `generate_reply` call: the returned result, the
number of `_call_api` attempts (network calls) performed, the `time.sleep`
durations, and the prompt passed to `_call_api` (`none` when the input
validation short-circuits before building it). -/
structure GenerateTrace where
  result : GenerateResult
  attempts : Nat
  sleeps : List Nat
  prompt : Option String
deriving DecidableEq, Repr

/-- `generate_reply(tweet_content, api_key, author, ..., max_retries)`.  The
input-validation checks mirror the code: `not tweet_content or not
tweet_content.strip()`, `not api_key`, `not author or not author.strip()`;
then the author is normalized by `author.strip().lstrip("@")` and the loop
runs. -/
def generate_reply (tweet_content api_key author : String)
    (outcome : Nat → ApiOutcome) (max_retries : Nat) : GenerateTrace :=
  if tweet_content = "" ∨ pyStrip tweet_content = "" then
    ⟨⟨false, "", "Tweet content cannot be empty", ""⟩, 0, [], none⟩
  else if api_key = "" then
    ⟨⟨false, "", "API Key cannot be empty", ""⟩, 0, [], none⟩
  else if author = "" ∨ pyStrip author = "" then
    ⟨⟨false, "", "Author username cannot be empty", ""⟩, 0, [], none⟩
  else
    let a := pyLstripAt (pyStrip author)
    let prompt := build_prompt (pyStrip tweet_content) a
    let r := genLoop outcome max_retries max_retries 1 ""
    ⟨r.1, r.2.1, r.2.2, some prompt⟩

/-! ## Posting (`post_reply` in the reply generator, `post_tweet` in the
tweet poster) -/

/-- The four credential environment variables. -/
def TWITTER_ENV_VARS : List String :=
  ["TWITTER_CONSUMER_KEY", "TWITTER_CONSUMER_SECRET",
   "TWITTER_ACCESS_TOKEN", "TWITTER_ACCESS_TOKEN_SECRET"]

/-- Python truthiness of `os.environ.get(var)`: present and non-empty. -/
def credTruthy : Option String → Bool
  | none => false
  | some s => s != ""

/-- `all([consumer_key, consumer_secret, access_token, access_token_secret])`. -/
def allCredsPresent (env : String → Option String) : Bool :=
  TWITTER_ENV_VARS.all (fun v => credTruthy (env v))

/-- Observable trace of a posting call: the returned message and whether the
Twitter client was invoked (a network call was attempted). -/
structure PostTrace where
  message : String
  networkCalled : Bool
deriving DecidableEq, Repr

/-- `post_reply(tweet_id, reply_text)` from the reply generator.  `env` is
`os.environ`; `createTweet` is the outcome of `client.create_tweet` (the id
of the created tweet, or the message of the raised exception). -/
def post_reply (env : String → Option String) (tweet_id reply_text : String)
    (createTweet : Except String String) : PostTrace :=
  if !allCredsPresent env then
    ⟨"Failed to post reply: missing Twitter environment variables (TWITTER_CONSUMER_KEY, TWITTER_CONSUMER_SECRET, TWITTER_ACCESS_TOKEN, TWITTER_ACCESS_TOKEN_SECRET)",
     false⟩
  else
    match createTweet with
    | .ok id => ⟨"Successfully replied! Tweet link: https://x.com/user/status/" ++ id, true⟩
    | .error e => ⟨"Failed to post reply: " ++ e, true⟩

/-- `post_tweet(text)` from the tweet poster. -/
def post_tweet (env : String → Option String) (text : String)
    (createTweet : Except String String) : PostTrace :=
  if !allCredsPresent env then
    ⟨"Failed to post tweet: missing environment variables (TWITTER_CONSUMER_KEY, etc.)", false⟩
  else
    match createTweet with
    | .ok id => ⟨"Successfully posted! Tweet link: https://x.com/user/status/" ++ id, true⟩
    | .error e => ⟨"Failed to post tweet: " ++ e, true⟩

/-! ## Response-shape bodies for the transparency claim -/

/-- A response body in the modern OpenAI-compatible shape carrying `s`. -/
def modernBody (s : String) : Json :=
  .obj [("choices", .arr [.obj [("message", .obj [("content", .str s)])]])]

/-- A response body in the legacy `output.choices` shape carrying `s`. -/
def legacyChoicesBody (s : String) : Json :=
  .obj [("output", .obj [("choices", .arr [.obj [("message", .obj [("content", .str s)])]])])]

/-- A response body in the legacy `output.text` shape carrying `s`. -/
def legacyTextBody (s : String) : Json :=
  .obj [("output", .obj [("text", .str s)])]

/-- A response body carrying content in all three shapes at once: `s` in the
modern shape, `t` in legacy `output.choices`, `u` in legacy `output.text`. -/
def prioritisedBody (s t u : String) : Json :=
  .obj [("choices", .arr [.obj [("message", .obj [("content", .str s)])]]),
        ("output", .obj [("choices",
            .arr [.obj [("message", .obj [("content", .str t)])]]),
          ("text", .str u)])]

/-- A response body whose `output` has a (falsy, empty) `choices` list and a
`text` field carrying `u`. -/
def legacyTextPriorityBody (u : String) : Json :=
  .obj [("output", .obj [("choices", .arr []), ("text", .str u)])]

/-! ## Spec-side predicates and fixed inputs used by individual claims -/

/-- From the wording of claim C2: the body carries the modern content field —
a non-empty `choices` list whose first element nests a message content. -/
def hasModernContentField (j : Json) : Bool :=
  match j with
  | .obj fs =>
    match fs.lookup "choices" with
    | some (.arr (first :: _)) =>
      match first with
      | .obj ffs =>
        match ffs.lookup "message" with
        | some (.obj mfs) => (mfs.lookup "content").isSome
        | _ => false
      | _ => false
    | _ => false
  | _ => false

/-- From the wording of claim C2: the body carries the legacy content
fields — an `output` object with its own `choices` or `text`. -/
def hasLegacyContentField (j : Json) : Bool :=
  match j with
  | .obj fs =>
    match fs.lookup "output" with
    | some (.obj os) => (os.lookup "choices").isSome || (os.lookup "text").isSome
    | _ => false
  | _ => false

/-- A 2xx response body with neither modern nor legacy content fields whose
probing nevertheless raises `TypeError` (`"choices" in 5`), used to refute
claim C2 as stated. -/
def c2Body : Json := .obj [("output", .num 5)]

/-- The top-level `choices` value (if any) is not a non-empty list, so the
modern extraction step falls through without raising. -/
def choicesFallsThrough (fs : List (String × Json)) : Bool :=
  match fs.lookup "choices" with
  | some (.arr (_ :: _)) => false
  | _ => true

/-- The `output` value (if any) is an object with no `text` key whose
`choices` value (if any) is falsy, so both legacy probing steps fall through
without raising. -/
def outputBenign (fs : List (String × Json)) : Bool :=
  match fs.lookup "output" with
  | none => true
  | some (.obj os) =>
    (os.lookup "text").isNone &&
      (match os.lookup "choices" with
       | none => true
       | some v => !v.truthy)
  | some _ => false

/-- The key named by the `KeyError` that
`output["choices"][0]["message"]["content"]` raises when the first legacy
choice lacks `"message"`, or its message object lacks `"content"`. -/
def missingKey (first : List (String × Json)) : String :=
  match first.lookup "message" with
  | none => "message"
  | some _ => "content"

/-- An environment with no variables set. -/
def envEmpty : String → Option String := fun _ => none

/-! ## Helper lemmas -/

theorem string_eq_empty_of_length_eq_zero (s : String) (h : s.length = 0) : s = "" := by
  cases s with
  | mk data =>
    cases data with
    | nil => rfl
    | cons c cs => simp [String.length] at h

theorem append_ne_empty_left (s t : String) (h : s ≠ "") : s ++ t ≠ "" := by
  intro he
  apply h
  apply string_eq_empty_of_length_eq_zero
  have hlen := congrArg String.length he
  rw [String.length_append] at hlen
  have hz : ("" : String).length = 0 := rfl
  omega

theorem exhaustMsg_ne_empty (mr : Nat) (le : String) : exhaustMsg mr le ≠ "" := by
  unfold exhaustMsg
  exact append_ne_empty_left _ _
    (append_ne_empty_left _ _ (append_ne_empty_left _ _ (by decide)))

theorem lengthWarningFor_ne_empty (n : Nat)
    (h : n < REPLY_MIN_LEN ∨ n > REPLY_MAX_LEN) : lengthWarningFor n ≠ "" := by
  unfold lengthWarningFor
  rcases h with h | h
  · rw [if_pos h]
    exact append_ne_empty_left _ _
      (append_ne_empty_left _ _ (append_ne_empty_left _ _ (append_ne_empty_left _ _ (by decide))))
  · have h2 : ¬ n < REPLY_MIN_LEN := by
      unfold REPLY_MIN_LEN REPLY_MAX_LEN at *
      omega
    rw [if_neg h2, if_pos h]
    exact append_ne_empty_left _ _
      (append_ne_empty_left _ _ (append_ne_empty_left _ _ (append_ne_empty_left _ _ (by decide))))

theorem genLoop_attempts_le (o : Nat → ApiOutcome) (mr : Nat) :
    ∀ fuel attempt le, attempt + fuel = mr + 1 →
      (genLoop o mr fuel attempt le).2.1 ≤ mr := by
  intro fuel
  induction fuel with
  | zero =>
    intro attempt le h
    simp only [genLoop]
    omega
  | succ f ih =>
    intro attempt le h
    cases hr : runAttempt (o attempt) with
    | ok r =>
      simp only [genLoop, hr]
      omega
    | error e =>
      by_cases hlt : attempt < mr
      · have := ih (attempt + 1) (classifyAttemptError e) (by omega)
        simp only [genLoop, hr, if_pos hlt]
        exact this
      · simp only [genLoop, hr, if_neg hlt]
        omega

theorem genLoop_attempts_ge (o : Nat → ApiOutcome) (mr : Nat) :
    ∀ fuel attempt le, 1 ≤ fuel → attempt ≤ (genLoop o mr fuel attempt le).2.1 := by
  intro fuel
  induction fuel with
  | zero => intro attempt le h; omega
  | succ f ih =>
    intro attempt le _
    cases hr : runAttempt (o attempt) with
    | ok r => simp only [genLoop, hr]; omega
    | error e =>
      by_cases hlt : attempt < mr
      · simp only [genLoop, hr, if_pos hlt]
        cases f with
        | zero => simp only [genLoop]; omega
        | succ f2 =>
          have := ih (attempt + 1) (classifyAttemptError e) (by omega)
          omega
      · simp only [genLoop, hr, if_neg hlt]
        omega

theorem genLoop_sleeps (o : Nat → ApiOutcome) (mr : Nat) :
    ∀ fuel attempt le,
      (genLoop o mr fuel attempt le).2.2 =
        (List.range (genLoop o mr fuel attempt le).2.2.length).map
          (fun i => RETRY_BACKOFF_BASE ^ (attempt + i)) := by
  intro fuel
  induction fuel with
  | zero => intro attempt le; simp [genLoop]
  | succ f ih =>
    intro attempt le
    cases hr : runAttempt (o attempt) with
    | ok r => simp [genLoop, hr]
    | error e =>
      by_cases hlt : attempt < mr
      · have h1 := ih (attempt + 1) (classifyAttemptError e)
        simp only [genLoop, hr, if_pos hlt, List.length_cons]
        rw [List.range_succ_eq_map, List.map_cons, List.map_map]
        congr 1
        rw [show ((fun i => RETRY_BACKOFF_BASE ^ (attempt + i)) ∘ Nat.succ)
              = (fun i => RETRY_BACKOFF_BASE ^ (attempt + 1 + i)) from
            funext (fun i => by simp only [Function.comp]; congr 1; omega)]
        exact h1
      · simp [genLoop, hr, hlt]

theorem genLoop_congr (o1 o2 : Nat → ApiOutcome) (mr : Nat)
    (h : ∀ i, runAttempt (o1 i) = runAttempt (o2 i)) :
    ∀ fuel attempt le, genLoop o1 mr fuel attempt le = genLoop o2 mr fuel attempt le := by
  intro fuel
  induction fuel with
  | zero => intro attempt le; simp [genLoop]
  | succ f ih =>
    intro attempt le
    simp only [genLoop, h attempt]
    cases runAttempt (o2 attempt) with
    | ok r => rfl
    | error e =>
      by_cases hlt : attempt < mr
      · simp only [if_pos hlt, ih]
      · simp only [if_neg hlt]

theorem genLoop_all_fail (o : Nat → ApiOutcome) (mr : Nat) (err : AttemptError)
    (ho : ∀ i, runAttempt (o i) = .error err) :
    ∀ fuel attempt le, 1 ≤ fuel →
      (genLoop o mr fuel attempt le).1 =
        ⟨false, "", exhaustMsg mr (classifyAttemptError err), ""⟩ := by
  intro fuel
  induction fuel with
  | zero => intro attempt le h; omega
  | succ f ih =>
    intro attempt le _
    by_cases hlt : attempt < mr
    · simp only [genLoop, ho attempt, if_pos hlt]
      cases f with
      | zero => simp [genLoop]
      | succ f2 => exact ih (attempt + 1) (classifyAttemptError err) (by omega)
    · simp [genLoop, ho attempt, hlt]

theorem genLoop_success_or_error (o : Nat → ApiOutcome) (mr : Nat) :
    ∀ fuel attempt le,
      (genLoop o mr fuel attempt le).1.success = true ∨
      (genLoop o mr fuel attempt le).1.error ≠ "" := by
  intro fuel
  induction fuel with
  | zero => intro attempt le; right; simpa [genLoop] using exhaustMsg_ne_empty mr le
  | succ f ih =>
    intro attempt le
    cases hr : runAttempt (o attempt) with
    | ok r => left; simp [genLoop, hr]
    | error e =>
      by_cases hlt : attempt < mr
      · simpa only [genLoop, hr, if_pos hlt] using ih (attempt + 1) (classifyAttemptError e)
      · right
        simpa [genLoop, hr, hlt] using exhaustMsg_ne_empty mr (classifyAttemptError e)

theorem generate_reply_valid (tc key author : String) (o : Nat → ApiOutcome) (mr : Nat)
    (h1 : pyStrip tc ≠ "") (h2 : key ≠ "") (h3 : pyStrip author ≠ "") :
    generate_reply tc key author o mr =
      ⟨(genLoop o mr mr 1 "").1, (genLoop o mr mr 1 "").2.1, (genLoop o mr mr 1 "").2.2,
       some (build_prompt (pyStrip tc) (pyLstripAt (pyStrip author)))⟩ := by
  have htc : tc ≠ "" := fun h => h1 (by rw [h]; rfl)
  have hau : author ≠ "" := fun h => h3 (by rw [h]; rfl)
  unfold generate_reply
  rw [if_neg (not_or.mpr ⟨htc, h1⟩), if_neg h2, if_neg (not_or.mpr ⟨hau, h3⟩)]

/-! ## Claims -/

/-- Claim C1: for every run of `generate_reply`, the number of `_call_api`
attempts never exceeds `max_retries`; and, numbering the attempts from zero
(as the spec does when it writes `backoffBase^k`), the sleep performed
before attempt `k`, for every attempt `k` after the first, lasts
`RETRY_BACKOFF_BASE ^ k` seconds: the recorded sleep list is
`[base^1, base^2, ...]` in order, so the sleep at position `k - 1` — the one
immediately before attempt `k` — is `base^k`. -/
theorem C1_retry_bound_and_backoff (tc key author : String)
    (outcome : Nat → ApiOutcome) (mr : Nat) :
    (generate_reply tc key author outcome mr).attempts ≤ mr ∧
    (generate_reply tc key author outcome mr).sleeps =
      (List.range (generate_reply tc key author outcome mr).sleeps.length).map
        (fun k => RETRY_BACKOFF_BASE ^ (k + 1)) := by
  unfold generate_reply
  split
  · simp
  · split
    · simp
    · split
      · simp
      · constructor
        · simpa using genLoop_attempts_le outcome mr mr 1 "" (by omega)
        · have h := genLoop_sleeps outcome mr mr 1 ""
          simp only [GenerateTrace.sleeps]
          rw [h]
          simp [Nat.add_comm]

/-- Claim C3: if `tweet_content` is empty or whitespace-only, or `api_key`
is empty, or `author` is empty or whitespace-only, `generate_reply` returns
`success = false` with a descriptive (non-empty) error, performing no
network call (no attempt) and no sleep; each of the three conditions
triggers this independently, with its own message. -/
theorem C3_empty_input_short_circuit (tc key author : String)
    (outcome : Nat → ApiOutcome) (mr : Nat)
    (h : pyStrip tc = "" ∨ key = "" ∨ pyStrip author = "") :
    (generate_reply tc key author outcome mr).result.success = false ∧
    (generate_reply tc key author outcome mr).result.error ≠ "" ∧
    (generate_reply tc key author outcome mr).attempts = 0 ∧
    (generate_reply tc key author outcome mr).sleeps = [] ∧
    (pyStrip tc = "" →
      (generate_reply tc key author outcome mr).result.error
        = "Tweet content cannot be empty") ∧
    (pyStrip tc ≠ "" → key = "" →
      (generate_reply tc key author outcome mr).result.error
        = "API Key cannot be empty") ∧
    (pyStrip tc ≠ "" → key ≠ "" → pyStrip author = "" →
      (generate_reply tc key author outcome mr).result.error
        = "Author username cannot be empty") := by
  by_cases hA : tc = "" ∨ pyStrip tc = ""
  · have hts : pyStrip tc = "" := by
      rcases hA with h0 | h0
      · rw [h0]; rfl
      · exact h0
    unfold generate_reply
    rw [if_pos hA]
    exact ⟨rfl, by decide, rfl, rfl, fun _ => rfl,
      fun hne _ => absurd hts hne, fun hne _ _ => absurd hts hne⟩
  · by_cases hB : key = ""
    · unfold generate_reply
      rw [if_neg hA, if_pos hB]
      refine ⟨rfl, by decide, rfl, rfl, ?_, fun _ _ => rfl, fun _ hk _ => absurd hB hk⟩
      intro hts; exact absurd (Or.inr hts) hA
    · by_cases hC : author = "" ∨ pyStrip author = ""
      · unfold generate_reply
        rw [if_neg hA, if_neg hB, if_pos hC]
        refine ⟨rfl, by decide, rfl, rfl, ?_, fun _ hk => absurd hk hB, fun _ _ _ => rfl⟩
        intro hts; exact absurd (Or.inr hts) hA
      · exfalso
        rcases h with h0 | h0 | h0
        · exact hA (Or.inr h0)
        · exact hB h0
        · exact hC (Or.inr h0)

theorem C3_witness :
    (generate_reply " " "key" "alice" (fun _ => ApiOutcome.requestError "boom") 3).attempts = 0 :=
  (C3_empty_input_short_circuit " " "key" "alice"
    (fun _ => ApiOutcome.requestError "boom") 3 (Or.inl (by decide))).2.2.1

/-- Claim C7: with `max_retries = 3` and backoff base 2, when every attempt
fails with a request failure (a `requests` exception with message `m i` on
attempt `i`), `generate_reply` performs exactly three attempts with exactly
two sleeps in between — 2 seconds then 4 seconds — and returns a failure
reporting retry exhaustion with the last error message. -/
theorem C7_three_request_failures (tc key author : String) (m : Nat → String)
    (h1 : pyStrip tc ≠ "") (h2 : key ≠ "") (h3 : pyStrip author ≠ "") :
    (generate_reply tc key author (fun i => ApiOutcome.requestError (m i)) 3).attempts = 3 ∧
    (generate_reply tc key author (fun i => ApiOutcome.requestError (m i)) 3).sleeps = [2, 4] ∧
    (generate_reply tc key author (fun i => ApiOutcome.requestError (m i)) 3).result.success
      = false ∧
    (generate_reply tc key author (fun i => ApiOutcome.requestError (m i)) 3).result.error =
      "Failed after 3 retries. Last error: " ++ ("API request failed: " ++ m 3) := by
  rw [generate_reply_valid tc key author (fun i => ApiOutcome.requestError (m i)) 3 h1 h2 h3]
  refine ⟨?_, ?_, ?_, ?_⟩ <;>
    simp [genLoop, runAttempt, classifyAttemptError, exhaustMsg, RETRY_BACKOFF_BASE]
  congr 1

theorem C7_witness :
    (generate_reply "some tweet" "key" "alice" (fun _ => ApiOutcome.requestError "conn reset") 3).sleeps
      = [2, 4] :=
  (C7_three_request_failures "some tweet" "key" "alice" (fun _ => "conn reset")
    (by decide) (by decide) (by decide)).2.1

/-- Claim C8: the author value substituted into the prompt is the input
author with surrounding whitespace and leading `@` characters removed
(`author.strip().lstrip("@")`); in particular, for the input author
`"@cz_binance"` the prompt is built with author `"cz_binance"`. -/
theorem C8_author_normalization (tc key author : String)
    (outcome : Nat → ApiOutcome) (mr : Nat)
    (h1 : pyStrip tc ≠ "") (h2 : key ≠ "") (h3 : pyStrip author ≠ "") :
    (generate_reply tc key author outcome mr).prompt =
      some (build_prompt (pyStrip tc) (pyLstripAt (pyStrip author))) ∧
    pyLstripAt (pyStrip "@cz_binance") = "cz_binance" ∧
    (generate_reply "AI is going to replace a lot of jobs" "k" "@cz_binance" outcome mr).prompt =
      some (build_prompt "AI is going to replace a lot of jobs" "cz_binance") := by
  refine ⟨?_, by decide, ?_⟩
  · rw [generate_reply_valid tc key author outcome mr h1 h2 h3]
  · rw [generate_reply_valid "AI is going to replace a lot of jobs" "k" "@cz_binance" outcome mr
      (by decide) (by decide) (by decide)]
    congr 1

theorem C8_witness :
    pyLstripAt (pyStrip "@cz_binance") = "cz_binance" :=
  (C8_author_normalization "AI is going to replace a lot of jobs" "k" "@cz_binance"
    (fun _ => ApiOutcome.requestError "x") 3 (by decide) (by decide) (by decide)).2.1

/-- Claim C9: `generate_reply` checks the API key only for falsiness, not
for whitespace: a whitespace-only `api_key` (non-empty but stripping to
empty) passes the precondition checks, the prompt is built and at least one
network attempt is made; whereas a whitespace-only `tweet_content` or
`author` is rejected as empty before any network call. -/
theorem C9_whitespace_key_passes (tc author wkey wtc wauthor : String)
    (outcome : Nat → ApiOutcome) (mr : Nat)
    (htc : pyStrip tc ≠ "") (hau : pyStrip author ≠ "")
    (hk1 : wkey ≠ "") (hk2 : pyStrip wkey = "")
    (hwtc : pyStrip wtc = "") (hwau : pyStrip wauthor = "") (hmr : 1 ≤ mr) :
    1 ≤ (generate_reply tc wkey author outcome mr).attempts ∧
    (generate_reply tc wkey author outcome mr).prompt ≠ none ∧
    (generate_reply wtc wkey author outcome mr).attempts = 0 ∧
    (generate_reply wtc wkey author outcome mr).result.success = false ∧
    (generate_reply tc wkey wauthor outcome mr).attempts = 0 ∧
    (generate_reply tc wkey wauthor outcome mr).result.success = false := by
  have htc' : tc ≠ "" := fun h => htc (by rw [h]; rfl)
  refine ⟨?_, ?_, ?_, ?_, ?_, ?_⟩
  · rw [generate_reply_valid tc wkey author outcome mr htc hk1 hau]
    exact genLoop_attempts_ge outcome mr mr 1 "" hmr
  · rw [generate_reply_valid tc wkey author outcome mr htc hk1 hau]
    simp
  · unfold generate_reply
    rw [if_pos (Or.inr hwtc)]
  · unfold generate_reply
    rw [if_pos (Or.inr hwtc)]
  · unfold generate_reply
    rw [if_neg (not_or.mpr ⟨htc', htc⟩), if_neg hk1, if_pos (Or.inr hwau)]
  · unfold generate_reply
    rw [if_neg (not_or.mpr ⟨htc', htc⟩), if_neg hk1, if_pos (Or.inr hwau)]

theorem C9_witness :
    1 ≤ (generate_reply "a tweet" " " "alice" (fun _ => ApiOutcome.requestError "x") 3).attempts :=
  (C9_whitespace_key_passes "a tweet" "alice" " " " \t " "  "
    (fun _ => ApiOutcome.requestError "x") 3
    (by decide) (by decide) (by decide) (by decide) (by decide) (by decide) (by decide)).1

/-- Claim C5: when an attempt extracts a reply whose character length is
strictly below `REPLY_MIN_LEN` (30) or strictly above `REPLY_MAX_LEN` (180),
`generate_reply` still returns `success = true` with the extracted text and
a non-empty `length_warning`; the length violation causes neither failure
nor a retry (the succeeding attempt is the last one, with no further sleep). -/
theorem C5_length_warning_advisory (tc key author r : String)
    (outcome : Nat → ApiOutcome) (mr : Nat)
    (h1 : pyStrip tc ≠ "") (h2 : key ≠ "") (h3 : pyStrip author ≠ "")
    (hmr : 1 ≤ mr) (hext : runAttempt (outcome 1) = .ok r)
    (hlen : r.length < REPLY_MIN_LEN ∨ r.length > REPLY_MAX_LEN) :
    (generate_reply tc key author outcome mr).result.success = true ∧
    (generate_reply tc key author outcome mr).result.reply = r ∧
    (generate_reply tc key author outcome mr).result.length_warning ≠ "" ∧
    (generate_reply tc key author outcome mr).attempts = 1 ∧
    (generate_reply tc key author outcome mr).sleeps = [] := by
  rw [generate_reply_valid tc key author outcome mr h1 h2 h3]
  obtain ⟨f, rfl⟩ : ∃ f, mr = f + 1 := ⟨mr - 1, by omega⟩
  simp only [genLoop, hext]
  refine ⟨?_, ?_, ?_, ?_, ?_⟩ <;>
    first
    | trivial
    | exact lengthWarningFor_ne_empty r.length hlen

theorem C5_witness :
    (generate_reply "some tweet" "key" "alice"
      (fun _ => ApiOutcome.httpOk
        (Json.obj [("output", Json.obj [("text", Json.str "too short")])])) 3).result.success
      = true :=
  (C5_length_warning_advisory "some tweet" "key" "alice" "too short"
    (fun _ => ApiOutcome.httpOk
      (Json.obj [("output", Json.obj [("text", Json.str "too short")])])) 3
    (by decide) (by decide) (by decide) (by decide) rfl (by decide)).1


theorem extract_modernBody (s : String) (hs : s ≠ "") :
    extractContent (modernBody s) = .ok (pyStrip s) := by
  simp [extractContent, modernBody, modernStep, Json.truthy, pyStripJson,
    List.lookup, hs]

theorem extract_legacyChoicesBody (s : String) :
    extractContent (legacyChoicesBody s) = .ok (pyStrip s) := by
  simp [extractContent, legacyChoicesBody, modernStep, legacyChoicesStep,
    pyMembership, pySubscript, pySubscriptZero, pyStripJson, Json.truthy, List.lookup]

theorem extract_legacyTextBody (s : String) :
    extractContent (legacyTextBody s) = .ok (pyStrip s) := by
  simp [extractContent, legacyTextBody, modernStep, legacyChoicesStep, textStep,
    pyMembership, pySubscript, pyStripJson, Json.truthy, List.lookup]

theorem extract_prioritisedBody (s t u : String) (hs : s ≠ "") :
    extractContent (prioritisedBody s t u) = .ok (pyStrip s) := by
  simp [extractContent, prioritisedBody, modernStep, Json.truthy, pyStripJson,
    List.lookup, hs]

theorem extract_prioritisedBody_fallback (t u : String) :
    extractContent (prioritisedBody "" t u) = .ok (pyStrip t) := by
  simp [extractContent, prioritisedBody, modernStep, legacyChoicesStep,
    pyMembership, pySubscript, pySubscriptZero, pyStripJson, Json.truthy, List.lookup]

theorem extract_legacyTextPriorityBody (u : String) :
    extractContent (legacyTextPriorityBody u) = .ok (pyStrip u) := by
  simp [extractContent, legacyTextPriorityBody, modernStep, legacyChoicesStep,
    textStep, pyMembership, pySubscript, pyStripJson, Json.truthy, List.lookup]

theorem generate_reply_congr (tc key author : String) (o1 o2 : Nat → ApiOutcome) (mr : Nat)
    (h : ∀ i, runAttempt (o1 i) = runAttempt (o2 i)) :
    generate_reply tc key author o1 mr = generate_reply tc key author o2 mr := by
  unfold generate_reply
  split
  · rfl
  · split
    · rfl
    · split
      · rfl
      · rw [genLoop_congr o1 o2 mr h mr 1 ""]

/-- Claim C6: extraction is tried in priority order — the modern `choices`
shape first, then legacy `output.choices`, then `output.text` — and the
shape is transparent to the caller: two bodies carrying the same content
string in either supported shape produce the same `GenerateResult` (indeed
the same whole observable trace).  The modern shape only yields content when
the carried string is non-empty (truthiness check in the code), hence the
hypothesis on `s` for the pair involving it. -/
theorem C6_priority_and_shape_transparency (tc key author s t u : String) (mr : Nat)
    (hs : s ≠ "") :
    extractContent (prioritisedBody s t u) = .ok (pyStrip s) ∧
    extractContent (prioritisedBody "" t u) = .ok (pyStrip t) ∧
    extractContent (legacyTextPriorityBody u) = .ok (pyStrip u) ∧
    generate_reply tc key author (fun _ => ApiOutcome.httpOk (modernBody s)) mr =
      generate_reply tc key author (fun _ => ApiOutcome.httpOk (legacyChoicesBody s)) mr ∧
    generate_reply tc key author (fun _ => ApiOutcome.httpOk (legacyChoicesBody t)) mr =
      generate_reply tc key author (fun _ => ApiOutcome.httpOk (legacyTextBody t)) mr := by
  refine ⟨extract_prioritisedBody s t u hs, extract_prioritisedBody_fallback t u,
    extract_legacyTextPriorityBody u, ?_, ?_⟩
  · apply generate_reply_congr
    intro i
    simp only [runAttempt, extract_modernBody s hs, extract_legacyChoicesBody s]
  · apply generate_reply_congr
    intro i
    simp only [runAttempt, extract_legacyChoicesBody t, extract_legacyTextBody t]

theorem C6_witness :
    extractContent (prioritisedBody "modern wins here" "legacy one" "legacy two")
      = .ok (pyStrip "modern wins here") :=
  (C6_priority_and_shape_transparency "some tweet" "key" "alice"
    "modern wins here" "legacy one" "legacy two" 3 (by decide)).1

/-- Claim C2 counterexample: the body `{"output": 5}` contains neither the
modern content field nor the legacy content fields, yet `_call_api` raises a
`TypeError` (from `"choices" in 5`), not a `ValueError`: `generate_reply`
records "Unknown error", not "Response parsing failed".  (No exception
escapes: the run still ends in a plain failure result.) -/
theorem C2_counterexample :
    hasModernContentField c2Body = false ∧
    hasLegacyContentField c2Body = false ∧
    extractContent c2Body =
      .error (.typeError "argument of type int is not iterable") ∧
    (generate_reply "some tweet" "key" "alice"
      (fun _ => ApiOutcome.httpOk c2Body) 3).result.success = false ∧
    strContains (generate_reply "some tweet" "key" "alice"
      (fun _ => ApiOutcome.httpOk c2Body) 3).result.error "Response parsing failed" = false ∧
    strContains (generate_reply "some tweet" "key" "alice"
      (fun _ => ApiOutcome.httpOk c2Body) 3).result.error "Unknown error: " = true := by
  refine ⟨rfl, rfl, rfl, ?_, ?_, ?_⟩ <;> decide

/-- Claim C2 (amended): for every HTTP-success body with neither modern nor
legacy content fields, no exception ever escapes `generate_reply` (every run
returns either success or a non-empty recorded error — third conjunct, for
all inputs); and the attempt is classified as a parse failure
(`ValueError`, "Response parsing failed: ...") provided the shape probing
itself raises nothing: the top-level JSON is an object whose `choices` value
(if any) is not a non-empty list and whose `output` value (if any) is an
object without `text` whose `choices` (if any) is falsy.  (Outside that
range the failure is classified as "Unknown error", as the counterexample
shows.) -/
theorem C2_amended_parse_failure (fs : List (String × Json))
    (tc key author : String) (mr : Nat)
    (hc : choicesFallsThrough fs = true) (ho : outputBenign fs = true)
    (h1 : pyStrip tc ≠ "") (h2 : key ≠ "") (h3 : pyStrip author ≠ "") (hmr : 1 ≤ mr) :
    extractContent (.obj fs) =
      .error (.valueError ("Failed to extract content from API response: "
        ++ (Json.dumps (.obj fs)).take 300)) ∧
    (generate_reply tc key author (fun _ => ApiOutcome.httpOk (.obj fs)) mr).result =
      ⟨false, "", exhaustMsg mr ("Response parsing failed: "
        ++ ("Failed to extract content from API response: "
          ++ (Json.dumps (.obj fs)).take 300)), ""⟩ ∧
    (∀ tc2 key2 author2 (outcome2 : Nat → ApiOutcome) (mr2 : Nat),
      (generate_reply tc2 key2 author2 outcome2 mr2).result.success = true ∨
      (generate_reply tc2 key2 author2 outcome2 mr2).result.error ≠ "") := by
  have hmod : modernStep fs = .ok none := by
    unfold choicesFallsThrough at hc
    unfold modernStep
    cases hch : fs.lookup "choices" with
    | none => rfl
    | some v =>
      rw [hch] at hc
      cases v with
      | null => rfl
      | bool b => rfl
      | num n => rfl
      | str s => rfl
      | obj o => rfl
      | arr l =>
        cases l with
        | nil => rfl
        | cons x xs => simp at hc
  have houtput : legacyChoicesStep ((fs.lookup "output").getD (.obj [])) = .ok none ∧
      textStep ((fs.lookup "output").getD (.obj [])) = .ok none := by
    unfold outputBenign at ho
    cases hoo : fs.lookup "output" with
    | none => exact ⟨rfl, rfl⟩
    | some v =>
      rw [hoo] at ho
      cases v with
      | null => simp at ho
      | bool b => simp at ho
      | num n => simp at ho
      | str s => simp at ho
      | arr l => simp at ho
      | obj os =>
        simp only [Bool.and_eq_true, Option.isNone_iff_eq_none] at ho
        obtain ⟨hoT, hoC⟩ := ho
        constructor
        · cases hoc : os.lookup "choices" with
          | none => simp [legacyChoicesStep, pyMembership, hoc]
          | some w =>
            rw [hoc] at hoC
            simp only [Bool.not_eq_eq_eq_not, Bool.not_true] at hoC
            simp [legacyChoicesStep, pyMembership, pySubscript, hoc, hoC]
        · simp [textStep, pyMembership, hoT]
  have hex : extractContent (.obj fs) =
      .error (.valueError ("Failed to extract content from API response: "
        ++ (Json.dumps (.obj fs)).take 300)) := by
    simp only [extractContent, hmod, houtput.1, houtput.2]
  have hall : runAttempt (ApiOutcome.httpOk (.obj fs)) =
      .error (.exc (.valueError ("Failed to extract content from API response: "
        ++ (Json.dumps (.obj fs)).take 300))) := by
    simp [runAttempt, hex]
  refine ⟨hex, ?_, ?_⟩
  · rw [generate_reply_valid tc key author _ mr h1 h2 h3]
    have hres := genLoop_all_fail (fun _ => ApiOutcome.httpOk (.obj fs)) mr _
      (fun _ => hall) mr 1 "" hmr
    simpa [classifyAttemptError] using hres
  · intro tc2 key2 author2 outcome2 mr2
    unfold generate_reply
    split
    · right; decide
    · split
      · right; decide
      · split
        · right; decide
        · simpa using genLoop_success_or_error outcome2 mr2 mr2 1 ""

theorem C2_amended_witness :
    extractContent (Json.obj []) =
      .error (.valueError ("Failed to extract content from API response: "
        ++ (Json.dumps (Json.obj [])).take 300)) :=
  (C2_amended_parse_failure [] "hi" "k" "alice" 1 rfl rfl
    (by decide) (by decide) (by decide) (by decide)).1

/-- Claim C10: for a response body that reaches the legacy fallback (no
top-level `choices` key) and whose `output` object contains a non-empty
`choices` list whose first element lacks a `message` key — or whose message
object lacks a `content` key — `_call_api` raises a `KeyError` (not a
`ValueError`), so `generate_reply` classifies that attempt as "Unknown
error" rather than a parse failure; the generic `except Exception` handler
still prevents a crash (the run ends in a plain failure result) and the
attempt is retried like any other failure (three attempts and two sleeps
with the default `max_retries = 3`). -/
theorem C10_legacy_missing_key_unknown_error (fs os first : List (String × Json))
    (rest : List Json) (tc key author : String)
    (hch : fs.lookup "choices" = none)
    (hout : fs.lookup "output" = some (.obj os))
    (hoc : os.lookup "choices" = some (.arr (.obj first :: rest)))
    (hmiss : first.lookup "message" = none ∨
      ∃ mfs, first.lookup "message" = some (.obj mfs) ∧ mfs.lookup "content" = none)
    (h1 : pyStrip tc ≠ "") (h2 : key ≠ "") (h3 : pyStrip author ≠ "") :
    extractContent (.obj fs) = .error (.keyError (missingKey first)) ∧
    classifyAttemptError (.exc (.keyError (missingKey first))) =
      "Unknown error: " ++ PyExc.message (.keyError (missingKey first)) ∧
    (generate_reply tc key author (fun _ => ApiOutcome.httpOk (.obj fs)) 3).result =
      ⟨false, "",
        exhaustMsg 3 ("Unknown error: " ++ PyExc.message (.keyError (missingKey first))),
        ""⟩ ∧
    (generate_reply tc key author (fun _ => ApiOutcome.httpOk (.obj fs)) 3).attempts = 3 ∧
    (generate_reply tc key author (fun _ => ApiOutcome.httpOk (.obj fs)) 3).sleeps = [2, 4] := by
  have hmod : modernStep fs = .ok none := by
    simp [modernStep, hch]
  have hex : extractContent (.obj fs) = .error (.keyError (missingKey first)) := by
    rcases hmiss with hm | ⟨mfs, hm, hcont⟩
    · simp [extractContent, hmod, legacyChoicesStep, pyMembership, pySubscript,
        pySubscriptZero, Json.truthy, hout, hoc, missingKey, hm]
    · simp [extractContent, hmod, legacyChoicesStep, pyMembership, pySubscript,
        pySubscriptZero, Json.truthy, hout, hoc, missingKey, hm, hcont]
  have hall : runAttempt (ApiOutcome.httpOk (.obj fs)) =
      .error (.exc (.keyError (missingKey first))) := by
    simp [runAttempt, hex]
  refine ⟨hex, rfl, ?_, ?_, ?_⟩
  all_goals rw [generate_reply_valid tc key author _ 3 h1 h2 h3]
  · have hres := genLoop_all_fail (fun _ => ApiOutcome.httpOk (.obj fs)) 3 _
      (fun _ => hall) 3 1 "" (by omega)
    simpa [classifyAttemptError] using hres
  · simp [genLoop, hall]
  · simp [genLoop, hall, RETRY_BACKOFF_BASE]

theorem C10_witness :
    extractContent (Json.obj [("output",
        Json.obj [("choices", Json.arr [Json.obj []])])]) =
      .error (.keyError "message") :=
  (C10_legacy_missing_key_unknown_error
    [("output", Json.obj [("choices", Json.arr [Json.obj []])])]
    [("choices", Json.arr [Json.obj []])] [] [] "some tweet" "key" "alice"
    rfl rfl rfl (Or.inl rfl) (by decide) (by decide) (by decide)).1

/-- Claim C4 counterexample: with all four credential variables missing,
`post_tweet` (tweet poster) does fail without a network call, but its
failure string does NOT contain all four expected variable names — it names
only `TWITTER_CONSUMER_KEY`. -/
theorem C4_counterexample :
    (post_tweet envEmpty "hello" (.ok "123")).networkCalled = false ∧
    strContains (post_tweet envEmpty "hello" (.ok "123")).message
      "TWITTER_CONSUMER_KEY" = true ∧
    strContains (post_tweet envEmpty "hello" (.ok "123")).message
      "TWITTER_CONSUMER_SECRET" = false ∧
    strContains (post_tweet envEmpty "hello" (.ok "123")).message
      "TWITTER_ACCESS_TOKEN" = false ∧
    strContains (post_tweet envEmpty "hello" (.ok "123")).message
      "TWITTER_ACCESS_TOKEN_SECRET" = false := by
  refine ⟨rfl, ?_, ?_, ?_, ?_⟩ <;> decide

/-- Claim C4 (amended): when at least one of the four credential environment
variables is missing (unset or empty), both posting operations return a
failure string without attempting a network call; `post_reply`'s failure
string contains all four expected variable names, while `post_tweet`'s
names only `TWITTER_CONSUMER_KEY` (followed by "etc."). -/
theorem C4_amended_missing_credentials (env : String → Option String)
    (tweet_id reply_text text : String) (api : Except String String)
    (h : ∃ v ∈ TWITTER_ENV_VARS, credTruthy (env v) = false) :
    (post_reply env tweet_id reply_text api).networkCalled = false ∧
    (∀ v ∈ TWITTER_ENV_VARS,
      strContains (post_reply env tweet_id reply_text api).message v = true) ∧
    strContains (post_reply env tweet_id reply_text api).message
      "Failed to post reply" = true ∧
    (post_tweet env text api).networkCalled = false ∧
    strContains (post_tweet env text api).message "TWITTER_CONSUMER_KEY" = true ∧
    strContains (post_tweet env text api).message "Failed to post tweet" = true := by
  have hall : allCredsPresent env = false := by
    obtain ⟨v, hv, hfalse⟩ := h
    have hv4 : v = "TWITTER_CONSUMER_KEY" ∨ v = "TWITTER_CONSUMER_SECRET" ∨
        v = "TWITTER_ACCESS_TOKEN" ∨ v = "TWITTER_ACCESS_TOKEN_SECRET" := by
      simpa [TWITTER_ENV_VARS] using hv
    unfold allCredsPresent TWITTER_ENV_VARS
    rcases hv4 with rfl | rfl | rfl | rfl <;> simp [hfalse]
  refine ⟨?_, ?_, ?_, ?_, ?_, ?_⟩ <;> simp [post_reply, post_tweet, hall] <;> decide

theorem C4_amended_witness :
    (post_reply envEmpty "12345" "some reply" (Except.ok "9")).networkCalled = false :=
  (C4_amended_missing_credentials envEmpty "12345" "some reply" "a tweet" (Except.ok "9")
    ⟨"TWITTER_CONSUMER_KEY", by decide, rfl⟩).1
